import Mathlib

/-!
Verification of the package reconciliation and backend-dispatch engine of
install/server.py (class PackageManager and the APIHandler update route).
The Python code is shallowly embedded: strings are Lean strings with the
relevant Python string operations modelled as structurally recursive
functions over the underlying character lists, filesystem paths are lists
of path segments, external command execution is an explicit function
parameter, and time is an integer parameter.
-/

namespace DesktopInstall

/-- Characters stripped by the Python str.strip default whitespace set
(restricted to the ASCII whitespace characters). -/
def isWs (c : Char) : Bool :=
  c == ' ' || c == '\t' || c == '\n' || c == '\r' || c == '\x0b' || c == '\x0c'

/-- Strip whitespace from both ends of a character list. -/
def stripList (l : List Char) : List Char :=
  ((l.dropWhile isWs).reverse.dropWhile isWs).reverse

/-- Model of Python str.strip() with no arguments. -/
def pyStrip (s : String) : String :=
  String.mk (stripList s.data)

/-- Model of Python str.startswith. -/
def pyStartsWith (s pre : String) : Bool :=
  pre.data.isPrefixOf s.data

/-- Model of Python s[n:] for a nonnegative index. -/
def pyDrop (s : String) (n : Nat) : String :=
  String.mk (s.data.drop n)

/-- Split a character list at every character satisfying p, keeping empty
pieces, as Python str.split with an explicit separator does. -/
def splitAllCharP (p : Char → Bool) : List Char → List (List Char)
  | [] => [[]]
  | x :: xs =>
    let r := splitAllCharP p xs
    if p x then [] :: r
    else
      match r with
      | [] => [[x]]
      | h :: t => (x :: h) :: t

/-- Model of Python s.split(sep) for a one-character separator sep. -/
def pySplitChar (s : String) (c : Char) : List String :=
  (splitAllCharP (fun x => x == c) s.data).map String.mk

/-- Model of Python s.split() with no arguments: split on whitespace runs,
discarding empty pieces. -/
def pySplitWs (s : String) : List String :=
  ((splitAllCharP isWs s.data).filter (fun l => !l.isEmpty)).map String.mk

/-- Model of Python s.split(sep, 1) for a one-character separator: the part
before the first occurrence, and the rest (none when sep is absent). -/
def splitFirstChar (s : String) (c : Char) : String × Option String :=
  match pySplitChar s c with
  | [] => (s, none)
  | [a] => (a, none)
  | a :: rest => (a, some (String.intercalate (String.mk [c]) rest))

/-- The lines of a text, as Python file iteration plus per-line strip sees
them. -/
def pyLines (s : String) : List String :=
  pySplitChar s '\n'

/-- A catalog entry as produced by PackageManager.read_packages
(server.py lines 79-117). -/
structure PackageEntry where
  name : String
  enabled : Bool
  description : String
deriving Repr, DecidableEq

/-- Parsing of one catalog line, embedding the loop body of
PackageManager.read_packages: blank lines and double-marker lines are
skipped, a single leading marker disables the entry and is stripped, the
remainder is split on the first marker into trimmed name and description,
and empty names are discarded. -/
def parseLine (line : String) : Option PackageEntry :=
  let l := pyStrip line
  if l == "" then none
  else if pyStartsWith l "##" then none
  else
    let isCommented := pyStartsWith l "#"
    let l2 := if isCommented then pyStrip (pyDrop l 1) else l
    let pieces := splitFirstChar l2 '#'
    let pname := pyStrip pieces.1
    let pdesc := pyStrip (pieces.2.getD "")
    if pname == "" then none
    else some { name := pname, enabled := !isCommented, description := pdesc }

/-- PackageManager.read_packages over the list of file lines: returns the
enabled-name list and the full entry list, in file order. -/
def readPackages : List String → List String × List PackageEntry
  | [] => ([], [])
  | line :: rest =>
    let r := readPackages rest
    match parseLine line with
    | none => r
    | some e => (if e.enabled then e.name :: r.1 else r.1, e :: r.2)

/-- PackageManager.read_packages over the raw catalog text. -/
def readPackagesText (raw : String) : List String × List PackageEntry :=
  readPackages (pyLines raw)

theorem readPackages_enabled_eq (lines : List String) :
    (readPackages lines).1 =
      ((readPackages lines).2.filter (fun p => p.enabled)).map (fun p => p.name) := by
  induction lines with
  | nil => rfl
  | cons line rest ih =>
    cases h : parseLine line with
    | none => simpa [readPackages, h] using ih
    | some e =>
      cases he : e.enabled <;>
        simp [readPackages, h, he, ih]

/-- C6: for every catalog text, the full list is at least as long as the
enabled list, and the enabled list is exactly the names of the full list
filtered by the enabled flag, in the same order. -/
theorem c6_catalog_lists (lines : List String) :
    (readPackages lines).1 =
      ((readPackages lines).2.filter (fun p => p.enabled)).map (fun p => p.name)
    ∧ (readPackages lines).1.length ≤ (readPackages lines).2.length := by
  refine ⟨readPackages_enabled_eq lines, ?_⟩
  rw [readPackages_enabled_eq lines, List.length_map]
  exact List.length_filter_le _ _

/-- C7: parsing the three-line example catalog yields exactly the firefox
(enabled) and vlc (disabled) entries, and the enabled list [firefox]. -/
theorem c7_example_parse :
    readPackagesText "firefox # web browser\n#vlc # media player\n## section\n" =
      (["firefox"],
        [{ name := "firefox", enabled := true, description := "web browser" },
         { name := "vlc", enabled := false, description := "media player" }]) := by
  decide

/-- An absolute filesystem path, as its list of segments (pathlib Path
after resolve()). -/
abbrev Seg := List String

/-- Model of pathlib Path.name: the final segment, empty for the root. -/
def pathName (p : Seg) : String :=
  p.getLast?.getD ""

/-- Model of pathlib Path.parent: drop the final segment. -/
def pathParent (p : Seg) : Seg :=
  p.dropLast

/-- The installed index: a Python dict from package name to version string,
as an insertion list where a later insertion overrides an earlier one. -/
abbrev Dict := List (String × String)

/-- Python dict assignment d[k] = v. -/
def dictInsert (d : Dict) (k v : String) : Dict :=
  d ++ [(k, v)]

/-- Python dict membership k in d. -/
def dictHas (d : Dict) (k : String) : Bool :=
  d.any (fun p => p.1 == k)

/-- Python dict lookup d.get(k): the most recent binding of k. -/
def dictGet (d : Dict) (k : String) : Option String :=
  (d.reverse.find? (fun p => p.1 == k)).map (fun p => p.2)

/-- A status record as built by PackageManager.get_all_packages_status
(server.py lines 339-347 and 354-362). -/
structure PackageStatus where
  name : String
  description : String
  installed : Bool
  version : Option String
  update_available : Bool
  new_version : Option String
  enabled : Bool
deriving Repr, DecidableEq

/-- The inputs of one reconciliation pass: the parsed catalog, the batched
installed index, filesystem existence, and the resolved home and base
directories. -/
structure Env where
  catalog : List PackageEntry
  idx : Dict
  fsExists : Seg → Bool
  home : Seg
  base : Seg

/-- The GitHub existence check of the status path (server.py lines
318-337): probe the webroot candidate dictated by the base-directory
layout, then fall back to the home Applications/GitHub directory. -/
def githubStatusInstalled (fs : Seg → Bool) (home base : Seg) (repoName : String) : Bool :=
  let inst0 :=
    if pathName base == "install" && pathName (pathParent base) == "desktop" then
      fs (pathParent (pathParent base) ++ [repoName])
    else if pathName base == "install" then
      fs (pathParent base ++ [repoName])
    else false
  if inst0 then true
  else fs (home ++ ["Applications", "GitHub", repoName])

/-- The backend-managed branch of the status loop (server.py lines
351-363): installed is presence in the batched index, version the mapped
value, and update probing is skipped. -/
def regularStatus (env : Env) (p : PackageEntry) : PackageStatus :=
  let inst := dictHas env.idx p.name
  { name := p.name
    description := p.description
    installed := inst
    version := if inst then dictGet env.idx p.name else none
    update_available := false
    new_version := none
    enabled := p.enabled }

/-- The GitHub branch of the status loop (server.py lines 316-349). -/
def githubStatus (env : Env) (p : PackageEntry) (repoName : String) : PackageStatus :=
  let inst := githubStatusInstalled env.fsExists env.home env.base repoName
  { name := p.name
    description := p.description
    installed := inst
    version := if inst then some "git" else none
    update_available := false
    new_version := none
    enabled := p.enabled }

/-- One iteration of the status loop of
PackageManager.get_all_packages_status (server.py lines 308-363): a
github-marked name whose remainder splits into exactly two parts takes the
GitHub branch, every other entry the backend branch. -/
def statusOf (env : Env) (p : PackageEntry) : PackageStatus :=
  if pyStartsWith p.name "github:" then
    let parts := pySplitChar (pyDrop p.name 7) '/'
    if parts.length == 2 then githubStatus env p (parts.getD 1 "")
    else regularStatus env p
  else regularStatus env p

/-- The full recomputation of the status list (server.py lines 301-363). -/
def computeStatuses (env : Env) : List PackageStatus :=
  env.catalog.map (statusOf env)

/-- The mutable cache of PackageManager: the single packages slot and its
timestamp. -/
structure PMState where
  cache : Option (List PackageStatus)
  cache_time : Int
deriving Repr, DecidableEq

/-- PackageManager.cache_ttl (server.py line 33). -/
def cacheTtl : Int := 300

/-- The recompute-and-replace tail of get_all_packages_status (server.py
lines 298-369). -/
def refreshStatuses (env : Env) (now : Int) : List PackageStatus × PMState :=
  let l := computeStatuses env
  (l, { cache := some l, cache_time := now })

/-- PackageManager.get_all_packages_status (server.py lines 290-369): on a
fresh cache holding a packages slot return it unchanged, otherwise
recompute and replace the slot and timestamp wholesale. -/
def getAllPackagesStatus (env : Env) (s : PMState) (now : Int) (force : Bool) :
    List PackageStatus × PMState :=
  if force = false ∧ now - s.cache_time < cacheTtl then
    match s.cache with
    | some l => (l, s)
    | none => refreshStatuses env now
  else refreshStatuses env now

theorem getAllPackagesStatus_hit (env : Env) (s : PMState) (now : Int)
    (l : List PackageStatus) (hc : s.cache = some l)
    (ht : now - s.cache_time < cacheTtl) :
    getAllPackagesStatus env s now false = (l, s) := by
  simp [getAllPackagesStatus, ht, hc]

theorem getAllPackagesStatus_cache_some (env : Env) (s : PMState) (now : Int)
    (force : Bool) :
    (getAllPackagesStatus env s now force).2.cache =
      some (getAllPackagesStatus env s now force).1 := by
  unfold getAllPackagesStatus
  split
  · cases hc : s.cache with
    | none => simp [refreshStatuses]
    | some l => simp [hc]
  · simp [refreshStatuses]

/-- C1: a call with forceRefresh=false inside the TTL with a cached list
present returns the cached list and leaves the state unchanged,
independently of the catalog, index and filesystem inputs; otherwise the
call recomputes and replaces the cache slot with the new list and the
current timestamp; hence a second call within the TTL of the first returns
the identical list and state. -/
theorem c1_cache_behavior (env env2 : Env) (s : PMState)
    (l : List PackageStatus) (now now2 : Int) :
    (s.cache = some l → now - s.cache_time < cacheTtl →
      getAllPackagesStatus env s now false = (l, s)
        ∧ getAllPackagesStatus env2 s now false = (l, s))
    ∧ ((s.cache = none ∨ cacheTtl ≤ now - s.cache_time) →
      getAllPackagesStatus env s now false =
        (computeStatuses env, { cache := some (computeStatuses env), cache_time := now }))
    ∧ (now2 - (getAllPackagesStatus env s now false).2.cache_time < cacheTtl →
      getAllPackagesStatus env (getAllPackagesStatus env s now false).2 now2 false =
        ((getAllPackagesStatus env s now false).1,
          (getAllPackagesStatus env s now false).2)) := by
  refine ⟨?_, ?_, ?_⟩
  · intro hc ht
    exact ⟨getAllPackagesStatus_hit env s now l hc ht,
      getAllPackagesStatus_hit env2 s now l hc ht⟩
  · intro h
    rcases h with hc | ht
    · by_cases ht : now - s.cache_time < cacheTtl <;>
        simp [getAllPackagesStatus, refreshStatuses, hc, ht]
    · simp [getAllPackagesStatus, refreshStatuses, not_lt.mpr ht]
  · intro ht
    exact getAllPackagesStatus_hit env _ now2 _
      (getAllPackagesStatus_cache_some env s now false) ht

/-- Concrete exercise of the C1 theorem: a fresh cached state is returned
unchanged by a non-forced call, and a stale state is replaced wholesale. -/
theorem c1_cache_behavior_witness :
    getAllPackagesStatus
        { catalog := [], idx := [], fsExists := fun _ => false, home := [], base := [] }
        { cache := some [], cache_time := 100 } 200 false =
      ([], { cache := some [], cache_time := 100 }) :=
  ((c1_cache_behavior
      { catalog := [], idx := [], fsExists := fun _ => false, home := [], base := [] }
      { catalog := [], idx := [], fsExists := fun _ => false, home := [], base := [] }
      { cache := some [], cache_time := 100 } [] 200 200).1 rfl (by decide)).1

theorem statusOf_no_update (env : Env) (p : PackageEntry) :
    (statusOf env p).update_available = false ∧ (statusOf env p).new_version = none := by
  simp only [statusOf, githubStatus, regularStatus]
  split
  · split <;> exact ⟨rfl, rfl⟩
  · exact ⟨rfl, rfl⟩

/-- C2: every status produced by the batched reconciliation pass, whether
through the GitHub branch or the backend branch, carries
update_available=false and no new_version. -/
theorem c2_no_update_in_batch (env : Env) (st : PackageStatus)
    (h : st ∈ computeStatuses env) :
    st.update_available = false ∧ st.new_version = none := by
  rcases List.mem_map.mp h with ⟨p, _, hp⟩
  exact hp ▸ statusOf_no_update env p

/-- Concrete exercise of the C2 theorem on a catalog holding one backend
entry and one GitHub entry. -/
theorem c2_no_update_in_batch_witness :
    (PackageStatus.mk "firefox" "web" true (some "120.0") false none true) ∈
      computeStatuses
        { catalog := [{ name := "firefox", enabled := true, description := "web" },
                      { name := "github:foo/bar", enabled := false, description := "" }],
          idx := [("firefox", "120.0")], fsExists := fun _ => false,
          home := ["home", "u"], base := ["srv"] }
    ∧ (PackageStatus.mk "firefox" "web" true (some "120.0") false none true).update_available = false
    ∧ (PackageStatus.mk "firefox" "web" true (some "120.0") false none true).new_version = none :=
  ⟨by decide,
    c2_no_update_in_batch
      { catalog := [{ name := "firefox", enabled := true, description := "web" },
                    { name := "github:foo/bar", enabled := false, description := "" }],
        idx := [("firefox", "120.0")], fsExists := fun _ => false,
        home := ["home", "u"], base := ["srv"] }
      (PackageStatus.mk "firefox" "web" true (some "120.0") false none true)
      (by decide)⟩

/-- C10: a github-marked name whose remainder does not split into exactly
two slash-separated parts is not rejected: it takes the backend branch,
its installed state being the presence of the full literal name in the
batched index. -/
theorem c10_malformed_github_falls_through (env : Env) (p : PackageEntry)
    (h1 : pyStartsWith p.name "github:" = true)
    (h2 : (pySplitChar (pyDrop p.name 7) '/').length ≠ 2) :
    statusOf env p =
      { name := p.name
        description := p.description
        installed := dictHas env.idx p.name
        version := if dictHas env.idx p.name then dictGet env.idx p.name else none
        update_available := false
        new_version := none
        enabled := p.enabled } := by
  unfold statusOf
  rw [h1]
  simp only [if_true]
  rw [if_neg]
  · rfl
  · simpa using h2

/-- Concrete exercise of the C10 theorem: the entry github:foo is looked
up in the index under its full literal name and reported installed. -/
theorem c10_malformed_github_falls_through_witness :
    statusOf
        { catalog := [], idx := [("github:foo", "1.0")], fsExists := fun _ => false,
          home := ["home", "u"], base := ["srv", "desktop", "install"] }
        { name := "github:foo", enabled := true, description := "" } =
      { name := "github:foo"
        description := ""
        installed := dictHas [("github:foo", "1.0")] "github:foo"
        version := if dictHas [("github:foo", "1.0")] "github:foo" then
            dictGet [("github:foo", "1.0")] "github:foo" else none
        update_available := false
        new_version := none
        enabled := true } :=
  c10_malformed_github_falls_through
    { catalog := [], idx := [("github:foo", "1.0")], fsExists := fun _ => false,
      home := ["home", "u"], base := ["srv", "desktop", "install"] }
    { name := "github:foo", enabled := true, description := "" }
    (by decide) (by decide)

/-- The install-directory resolution of PackageManager.install_from_github
(server.py lines 502-535): the owner/repo reference must split into
exactly two parts, then a desktop/install base resolves two levels up, an
install base one level up, and anything else to the home
Applications/GitHub directory. -/
def resolveInstallDir (home base : Seg) (repoFullName : String) :
    Except String Seg :=
  let parts := pySplitChar repoFullName '/'
  if parts.length != 2 then
    Except.error ("Invalid GitHub repo format: " ++ repoFullName ++ ". Use \x27owner/repo\x27")
  else
    let repoName := parts.getD 1 ""
    if pathName base == "install" && pathName (pathParent base) == "desktop" then
      Except.ok (pathParent (pathParent base) ++ [repoName])
    else if pathName base == "install" then
      Except.ok (pathParent base ++ [repoName])
    else
      Except.ok (home ++ ["Applications", "GitHub", repoName])

/-- C3: the resolver precedence on a well-formed owner/repo reference, the
format failure otherwise, and the three concrete examples of the spec. -/
theorem c3_resolve_install_dir (home base : Seg) (r owner rn : String) :
    (pySplitChar r '/' = [owner, rn] →
      resolveInstallDir home base r =
        (if pathName base = "install" ∧ pathName (pathParent base) = "desktop" then
          Except.ok (pathParent (pathParent base) ++ [rn])
        else if pathName base = "install" then
          Except.ok (pathParent base ++ [rn])
        else
          Except.ok (home ++ ["Applications", "GitHub", rn])))
    ∧ ((pySplitChar r '/').length ≠ 2 →
      resolveInstallDir home base r =
        Except.error ("Invalid GitHub repo format: " ++ r ++ ". Use \x27owner/repo\x27"))
    ∧ resolveInstallDir home ["srv", "desktop", "install"] "foo/bar" =
        Except.ok ["srv", "bar"]
    ∧ resolveInstallDir home ["srv", "install"] "foo/bar" = Except.ok ["srv", "bar"]
    ∧ resolveInstallDir home ["tmp", "x"] "foo/bar" =
        Except.ok (home ++ ["Applications", "GitHub", "bar"]) := by
  refine ⟨?_, ?_, rfl, rfl, rfl⟩
  · intro h
    unfold resolveInstallDir
    rw [h]
    simp only [List.length_cons, List.length_nil, List.getD]
    by_cases h1 : pathName base = "install"
    · by_cases h2 : pathName (pathParent base) = "desktop" <;>
        simp [h1, h2]
    · simp [h1]
  · intro h
    unfold resolveInstallDir
    rw [if_pos]
    simpa using h

/-- Concrete exercise of the C3 theorem: resolving foo/bar from a
desktop/install base lands two levels up, and a single-part reference
fails with the format error. -/
theorem c3_resolve_install_dir_witness :
    resolveInstallDir ["home", "u"] ["srv", "desktop", "install"] "foo/bar" =
      Except.ok ["srv", "bar"]
    ∧ resolveInstallDir ["home", "u"] ["srv", "desktop", "install"] "foo" =
      Except.error ("Invalid GitHub repo format: " ++ "foo" ++ ". Use \x27owner/repo\x27") :=
  ⟨(c3_resolve_install_dir ["home", "u"] ["srv", "desktop", "install"]
      "foo/bar" "foo" "bar").2.2.1,
   (c3_resolve_install_dir ["home", "u"] ["srv", "desktop", "install"]
      "foo" "foo" "bar").2.1 (by decide)⟩

/-- A filesystem on which only the home Applications/GitHub copy of bar
exists. -/
def fsHomeOnly : Seg → Bool :=
  fun p => p == ["home", "u", "Applications", "GitHub", "bar"]

/-- A reconciliation environment in the desktop/install webroot layout
whose catalog holds the single entry github:foo/bar. -/
def envHomeOnly : Env :=
  { catalog := [{ name := "github:foo/bar", enabled := true, description := "" }]
    idx := []
    fsExists := fsHomeOnly
    home := ["home", "u"]
    base := ["srv", "desktop", "install"] }

/-- C8 counterexample: in the desktop/install layout the resolver of
install_from_github picks the webroot directory srv/bar, which does not
exist here, yet the status pass reports the entry installed (with version
git) because it additionally probes the home Applications/GitHub fallback.
So installed does not coincide with existence of the resolver directory. -/
theorem c8_counterexample :
    computeStatuses envHomeOnly =
      [{ name := "github:foo/bar", description := "", installed := true,
         version := some "git", update_available := false, new_version := none,
         enabled := true }]
    ∧ resolveInstallDir ["home", "u"] ["srv", "desktop", "install"] "foo/bar" =
        Except.ok ["srv", "bar"]
    ∧ fsHomeOnly ["srv", "bar"] = false := by
  refine ⟨?_, rfl, rfl⟩
  decide

/-- C8 (amended): for a GitHub-marked entry with a well-formed owner/repo
remainder, the status pass reports installed exactly when the layout
webroot candidate exists or, failing that, when the home
Applications/GitHub directory exists; the version is the git sentinel
exactly when installed, absent otherwise. -/
theorem c8_github_status_amended (env : Env) (p : PackageEntry) (owner rn : String)
    (h1 : pyStartsWith p.name "github:" = true)
    (h2 : pySplitChar (pyDrop p.name 7) '/' = [owner, rn]) :
    ((statusOf env p).installed = true ↔
      ((pathName env.base = "install" ∧ pathName (pathParent env.base) = "desktop"
          ∧ env.fsExists (pathParent (pathParent env.base) ++ [rn]) = true)
        ∨ (pathName env.base = "install" ∧ pathName (pathParent env.base) ≠ "desktop"
          ∧ env.fsExists (pathParent env.base ++ [rn]) = true)
        ∨ env.fsExists (env.home ++ ["Applications", "GitHub", rn]) = true))
    ∧ (statusOf env p).version =
        (if (statusOf env p).installed then some "git" else none)
    ∧ (statusOf env p).name = p.name
    ∧ (statusOf env p).enabled = p.enabled := by
  have hs : statusOf env p = githubStatus env p rn := by
    unfold statusOf
    rw [h1]
    simp only [if_true, h2]
    rfl
  rw [hs]
  unfold githubStatus githubStatusInstalled
  refine ⟨?_, ?_, rfl, rfl⟩
  · by_cases hb1 : pathName env.base = "install"
    · by_cases hb2 : pathName (pathParent env.base) = "desktop"
      · cases hw : env.fsExists (pathParent (pathParent env.base) ++ [rn]) <;>
          cases hh : env.fsExists (env.home ++ ["Applications", "GitHub", rn]) <;>
          simp [hb1, hb2, hw, hh]
      · cases hw : env.fsExists (pathParent env.base ++ [rn]) <;>
          cases hh : env.fsExists (env.home ++ ["Applications", "GitHub", rn]) <;>
          simp [hb1, hb2, hw, hh]
    · cases hh : env.fsExists (env.home ++ ["Applications", "GitHub", rn]) <;>
        simp [hb1, hh]
  · by_cases hb1 : pathName env.base = "install" <;>
      by_cases hb2 : pathName (pathParent env.base) = "desktop" <;>
      simp [hb1, hb2]

/-- Concrete exercise of the amended C8 theorem on the home-only
environment: the entry is reported installed with the git version
sentinel. -/
theorem c8_github_status_amended_witness :
    ((statusOf envHomeOnly { name := "github:foo/bar", enabled := true, description := "" }).installed = true ↔
      ((pathName envHomeOnly.base = "install" ∧ pathName (pathParent envHomeOnly.base) = "desktop"
          ∧ envHomeOnly.fsExists (pathParent (pathParent envHomeOnly.base) ++ ["bar"]) = true)
        ∨ (pathName envHomeOnly.base = "install" ∧ pathName (pathParent envHomeOnly.base) ≠ "desktop"
          ∧ envHomeOnly.fsExists (pathParent envHomeOnly.base ++ ["bar"]) = true)
        ∨ envHomeOnly.fsExists (envHomeOnly.home ++ ["Applications", "GitHub", "bar"]) = true))
    ∧ (statusOf envHomeOnly { name := "github:foo/bar", enabled := true, description := "" }).version =
        (if (statusOf envHomeOnly { name := "github:foo/bar", enabled := true, description := "" }).installed
          then some "git" else none)
    ∧ (statusOf envHomeOnly { name := "github:foo/bar", enabled := true, description := "" }).name =
        "github:foo/bar"
    ∧ (statusOf envHomeOnly { name := "github:foo/bar", enabled := true, description := "" }).enabled = true :=
  c8_github_status_amended envHomeOnly
    { name := "github:foo/bar", enabled := true, description := "" }
    "foo" "bar" (by decide) (by decide)

/-- The outcome of one external command run through subprocess.run with
captured output. -/
structure CmdResult where
  exitcode : Int
  stdout : String
  stderr : String
deriving Repr, DecidableEq

/-- Model of the Python repr of a list of plain strings. -/
def pyListRepr (argv : List String) : String :=
  "[" ++ String.intercalate ", " (argv.map (fun a => "\x27" ++ a ++ "\x27")) ++ "]"

/-- Model of str(subprocess.CalledProcessError) for a failed command with
a positive exit status: the %s rendering of the argv list is its list
repr. -/
def cpeStr (argv : List String) (code : Int) : String :=
  "Command \x27" ++ pyListRepr argv ++
    "\x27 returned non-zero exit status " ++ toString code ++ "."

/-- The diagnostic text used in the except branches: the captured stderr
when nonempty, otherwise the rendered exception. -/
def errText (r : CmdResult) (argv : List String) : String :=
  if r.stderr == "" then cpeStr argv r.exitcode else r.stderr

/-- PackageManager.install_package, non-GitHub branch (server.py lines
454-494): brew tries the cask then the checked formula install, apt, dnf
and winget run one checked command each, and any other backend reports the
not-supported message. A checked nonzero exit is the caught
CalledProcessError returning the diagnostic message. -/
def installPackage (pm : String) (run : List String → CmdResult) (pkg : String) :
    Bool × Option String :=
  if pm == "brew" then
    let r1 := run ["brew", "install", "--cask", pkg]
    if r1.exitcode == 0 then (true, none)
    else
      let argv := ["brew", "install", pkg]
      let r2 := run argv
      if r2.exitcode == 0 then (true, none)
      else (false, some ("Error installing " ++ pkg ++ ": " ++ errText r2 argv))
  else if pm == "apt" then
    let argv := ["sudo", "apt-get", "install", "-y", pkg]
    let r := run argv
    if r.exitcode == 0 then (true, none)
    else (false, some ("Error installing " ++ pkg ++ ": " ++ errText r argv))
  else if pm == "dnf" then
    let argv := ["sudo", "dnf", "install", "-y", pkg]
    let r := run argv
    if r.exitcode == 0 then (true, none)
    else (false, some ("Error installing " ++ pkg ++ ": " ++ errText r argv))
  else if pm == "winget" then
    let argv := ["winget", "install", "-e", "--id", pkg]
    let r := run argv
    if r.exitcode == 0 then (true, none)
    else (false, some ("Error installing " ++ pkg ++ ": " ++ errText r argv))
  else
    (false, some ("Package manager \x27" ++ pm ++ "\x27 not supported for " ++ pkg))

/-- PackageManager.update_package (server.py lines 669-694): brew runs the
cask and formula upgrades without checking their exit codes and reports
True, apt runs a checked only-upgrade install, every other backend
reports False. The return value is a bare boolean with no message. -/
def updatePackage (pm : String) (run : List String → CmdResult) (pkg : String) : Bool :=
  if pm == "brew" then
    let _r1 := run ["brew", "upgrade", "--cask", pkg]
    let _r2 := run ["brew", "upgrade", pkg]
    true
  else if pm == "apt" then
    (run ["sudo", "apt-get", "install", "--only-upgrade", "-y", pkg]).exitcode == 0
  else false

/-- PackageManager.uninstall_package, non-GitHub branch (server.py lines
741-790): brew tries the cask then the formula uninstall, the other
backends one checked removal each, anything else reports False. The
return value is a bare boolean with no message. -/
def uninstallPackage (pm : String) (run : List String → CmdResult) (pkg : String) : Bool :=
  if pm == "brew" then
    let r1 := run ["brew", "uninstall", "--cask", pkg]
    if r1.exitcode == 0 then true
    else (run ["brew", "uninstall", pkg]).exitcode == 0
  else if pm == "apt" then
    (run ["sudo", "apt-get", "remove", "-y", pkg]).exitcode == 0
  else if pm == "dnf" || pm == "yum" then
    (run ["sudo", pm, "remove", "-y", pkg]).exitcode == 0
  else if pm == "flatpak" then
    (run ["flatpak", "uninstall", "-y", pkg]).exitcode == 0
  else if pm == "winget" then
    (run ["winget", "uninstall", pkg]).exitcode == 0
  else false

/-- A command runner on which every external command exits nonzero. -/
def runAllFail : List String → CmdResult :=
  fun _ => { exitcode := 1, stdout := "", stderr := "failure" }

/-- C4 counterexample: with every external command exiting nonzero, the
brew update operation still reports success, and as a bare boolean there
is no error message carrying the diagnostic output; so a nonzero exit
does not yield success=false with the diagnostic as the claim states. -/
theorem c4_counterexample : updatePackage "brew" runAllFail "vlc" = true := rfl

/-- C4 (amended): install returns a (success, optional message) pair: on
every install backend (brew after its cask and checked formula attempts,
apt, dnf, winget) a nonzero exit of the final checked command yields
false with the diagnostic text, and any other backend yields false with
the not-supported message; update and uninstall instead return only a
success boolean with no message, any unsupported pair (every backend but
brew and apt for update, every backend outside the six for uninstall)
yielding bare false, and the brew update path ignores the exit codes of
its two upgrade commands, reporting success regardless. -/
theorem c4_dispatcher_amended (run : List String → CmdResult) (pmI pmU pmR pkg : String)
    (hI1 : pmI ≠ "brew") (hI2 : pmI ≠ "apt") (hI3 : pmI ≠ "dnf") (hI4 : pmI ≠ "winget")
    (hU1 : pmU ≠ "brew") (hU2 : pmU ≠ "apt")
    (hR1 : pmR ≠ "brew") (hR2 : pmR ≠ "apt") (hR3 : pmR ≠ "dnf") (hR4 : pmR ≠ "yum")
    (hR5 : pmR ≠ "flatpak") (hR6 : pmR ≠ "winget")
    (hbrew1 : (run ["brew", "install", "--cask", pkg]).exitcode ≠ 0)
    (hbrew2 : (run ["brew", "install", pkg]).exitcode ≠ 0)
    (hapt : (run ["sudo", "apt-get", "install", "-y", pkg]).exitcode ≠ 0)
    (hdnf : (run ["sudo", "dnf", "install", "-y", pkg]).exitcode ≠ 0)
    (hwin : (run ["winget", "install", "-e", "--id", pkg]).exitcode ≠ 0) :
    installPackage pmI run pkg =
        (false, some ("Package manager \x27" ++ pmI ++ "\x27 not supported for " ++ pkg))
    ∧ installPackage "brew" run pkg =
        (false, some ("Error installing " ++ pkg ++ ": "
          ++ errText (run ["brew", "install", pkg]) ["brew", "install", pkg]))
    ∧ installPackage "apt" run pkg =
        (false, some ("Error installing " ++ pkg ++ ": "
          ++ errText (run ["sudo", "apt-get", "install", "-y", pkg])
              ["sudo", "apt-get", "install", "-y", pkg]))
    ∧ installPackage "dnf" run pkg =
        (false, some ("Error installing " ++ pkg ++ ": "
          ++ errText (run ["sudo", "dnf", "install", "-y", pkg])
              ["sudo", "dnf", "install", "-y", pkg]))
    ∧ installPackage "winget" run pkg =
        (false, some ("Error installing " ++ pkg ++ ": "
          ++ errText (run ["winget", "install", "-e", "--id", pkg])
              ["winget", "install", "-e", "--id", pkg]))
    ∧ updatePackage "brew" run pkg = true
    ∧ updatePackage pmU run pkg = false
    ∧ uninstallPackage pmR run pkg = false := by
  refine ⟨?_, ?_, ?_, ?_, ?_, rfl, ?_, ?_⟩
  · simp [installPackage, hI1, hI2, hI3, hI4]
  · simp [installPackage, hbrew1, hbrew2]
  · simp [installPackage, hapt]
  · simp [installPackage, hdnf]
  · simp [installPackage, hwin]
  · simp [updatePackage, hU1, hU2]
  · simp [uninstallPackage, hR1, hR2, hR3, hR4, hR5, hR6]

/-- Concrete exercise of the amended C4 theorem with the all-failing
runner: yum is unsupported for install, dnf for update, and the
no-backend sentinel none for uninstall. -/
theorem c4_dispatcher_amended_witness :
    installPackage "yum" runAllFail "vlc" =
        (false, some ("Package manager \x27" ++ "yum" ++ "\x27 not supported for " ++ "vlc"))
    ∧ installPackage "brew" runAllFail "vlc" =
        (false, some ("Error installing " ++ "vlc" ++ ": "
          ++ errText (runAllFail ["brew", "install", "vlc"]) ["brew", "install", "vlc"]))
    ∧ installPackage "apt" runAllFail "vlc" =
        (false, some ("Error installing " ++ "vlc" ++ ": "
          ++ errText (runAllFail ["sudo", "apt-get", "install", "-y", "vlc"])
              ["sudo", "apt-get", "install", "-y", "vlc"]))
    ∧ installPackage "dnf" runAllFail "vlc" =
        (false, some ("Error installing " ++ "vlc" ++ ": "
          ++ errText (runAllFail ["sudo", "dnf", "install", "-y", "vlc"])
              ["sudo", "dnf", "install", "-y", "vlc"]))
    ∧ installPackage "winget" runAllFail "vlc" =
        (false, some ("Error installing " ++ "vlc" ++ ": "
          ++ errText (runAllFail ["winget", "install", "-e", "--id", "vlc"])
              ["winget", "install", "-e", "--id", "vlc"]))
    ∧ updatePackage "brew" runAllFail "vlc" = true
    ∧ updatePackage "dnf" runAllFail "vlc" = false
    ∧ uninstallPackage "none" runAllFail "vlc" = false :=
  c4_dispatcher_amended runAllFail "yum" "dnf" "none" "vlc"
    (by decide) (by decide) (by decide) (by decide)
    (by decide) (by decide)
    (by decide) (by decide) (by decide) (by decide) (by decide) (by decide)
    (by decide) (by decide) (by decide) (by decide) (by decide)

/-- A batched-query command request: the argument vector and the explicit
timeout in seconds passed to subprocess.run. -/
structure RunReq where
  argv : List String
  timeoutSec : Nat
deriving Repr, DecidableEq

/-- The outcome of a batched-query run: a completed command, or the
TimeoutExpired or generic exception caught by the except branches. -/
inductive RunOut where
  | ok (res : CmdResult)
  | err
deriving Repr, DecidableEq

/-- The brew cask bulk-listing request (server.py lines 378-381). -/
def brewCaskReq : RunReq := { argv := ["brew", "list", "--cask", "--versions"], timeoutSec := 10 }

/-- The brew formula bulk-listing request (server.py lines 389-391). -/
def brewFormulaReq : RunReq := { argv := ["brew", "list", "--formula", "--versions"], timeoutSec := 10 }

/-- The dpkg-query bulk-listing request (server.py lines 400-402). -/
def dpkgQueryReq : RunReq :=
  { argv := ["dpkg-query", "-W", "-f=$\x7bPackage\x7d\t$\x7bVersion\x7d\n"], timeoutSec := 10 }

/-- The rpm bulk-listing request (server.py lines 410-412). -/
def rpmQueryReq : RunReq :=
  { argv := ["rpm", "-qa", "--queryformat", "%\x7bNAME\x7d\t%\x7bVERSION\x7d\n"], timeoutSec := 10 }

/-- The flatpak bulk-listing request (server.py lines 420-422). -/
def flatpakListReq : RunReq :=
  { argv := ["flatpak", "list", "--app", "--columns=name,version"], timeoutSec := 10 }

/-- The winget bulk-listing request (server.py lines 430-432). -/
def wingetListReq : RunReq := { argv := ["winget", "list"], timeoutSec := 15 }

/-- One line of the brew columnar output: skip blank lines, take the first
two whitespace columns as name and version (server.py lines 382-386). -/
def brewAddLine (acc : Dict) (line : String) : Dict :=
  if pyStrip line == "" then acc
  else
    let parts := pySplitWs line
    if parts.length ≥ 2 then dictInsert acc (parts.getD 0 "") (parts.getD 1 "") else acc

/-- Parse a whole brew bulk listing into the accumulated index. -/
def parseBrewOut (stdout : String) (acc : Dict) : Dict :=
  (pyLines stdout).foldl brewAddLine acc

/-- One line of tab-delimited output: split on the first tab into name and
version (server.py lines 404-407 and 414-417). -/
def tabAddLine (acc : Dict) (line : String) : Dict :=
  if line.data.contains '\t' then
    let pieces := splitFirstChar line '\t'
    dictInsert acc pieces.1 (pieces.2.getD "")
  else acc

/-- Parse a whole tab-delimited bulk listing into the accumulated index. -/
def parseTabOut (stdout : String) (acc : Dict) : Dict :=
  (pyLines stdout).foldl tabAddLine acc

/-- One line of the flatpak listing: split on the first tab and strip both
fields (server.py lines 424-427). -/
def flatpakAddLine (acc : Dict) (line : String) : Dict :=
  if line.data.contains '\t' then
    let pieces := splitFirstChar line '\t'
    dictInsert acc (pyStrip pieces.1) (pyStrip (pieces.2.getD ""))
  else acc

/-- One line of the winget table: take the first two whitespace columns
(server.py lines 436-439). -/
def wingetAddLine (acc : Dict) (line : String) : Dict :=
  let parts := pySplitWs line
  if parts.length ≥ 2 then dictInsert acc (parts.getD 0 "") (parts.getD 1 "") else acc

/-- PackageManager.get_all_installed_packages (server.py lines 371-446):
one batched bulk-listing invocation per backend (two for brew), each with
its explicit timeout; a timeout or execution error abandons the pass and
returns whatever was parsed so far, never an exception. -/
def getAllInstalledPackages (pm : String) (run : RunReq → RunOut) : Dict :=
  if pm == "brew" then
    match run brewCaskReq with
    | RunOut.err => []
    | RunOut.ok r1 =>
      let m1 := parseBrewOut r1.stdout []
      match run brewFormulaReq with
      | RunOut.err => m1
      | RunOut.ok r2 => parseBrewOut r2.stdout m1
  else if pm == "apt" then
    match run dpkgQueryReq with
    | RunOut.err => []
    | RunOut.ok r => parseTabOut r.stdout []
  else if pm == "dnf" || pm == "yum" then
    match run rpmQueryReq with
    | RunOut.err => []
    | RunOut.ok r => parseTabOut r.stdout []
  else if pm == "flatpak" then
    match run flatpakListReq with
    | RunOut.err => []
    | RunOut.ok r => ((pyLines r.stdout).drop 1).foldl flatpakAddLine []
  else if pm == "winget" then
    match run wingetListReq with
    | RunOut.err => []
    | RunOut.ok r => ((pyLines r.stdout).drop 2).foldl wingetAddLine []
  else []

/-- C5: the batched installed query consults the runner only through
requests carrying a 10 or 15 second timeout (two runners agreeing on all
such requests give the same index); on an error or timeout of any
invocation it returns exactly what the earlier invocations produced
(commonly the empty index) instead of propagating a failure; and each
fixed request carries its 10 second timeout, 15 for winget. -/
theorem c5_installed_index_degrades (run runB : RunReq → RunOut) (pm : String)
    (r1 : CmdResult) :
    ((∀ req : RunReq, req.timeoutSec = 10 ∨ req.timeoutSec = 15 → run req = runB req) →
      getAllInstalledPackages pm run = getAllInstalledPackages pm runB)
    ∧ (run brewCaskReq = RunOut.err → getAllInstalledPackages "brew" run = [])
    ∧ (run brewCaskReq = RunOut.ok r1 → run brewFormulaReq = RunOut.err →
        getAllInstalledPackages "brew" run = parseBrewOut r1.stdout [])
    ∧ (run dpkgQueryReq = RunOut.err → getAllInstalledPackages "apt" run = [])
    ∧ (run rpmQueryReq = RunOut.err → getAllInstalledPackages "dnf" run = [])
    ∧ (run flatpakListReq = RunOut.err → getAllInstalledPackages "flatpak" run = [])
    ∧ (run wingetListReq = RunOut.err → getAllInstalledPackages "winget" run = [])
    ∧ brewCaskReq.timeoutSec = 10 ∧ brewFormulaReq.timeoutSec = 10
    ∧ dpkgQueryReq.timeoutSec = 10 ∧ rpmQueryReq.timeoutSec = 10
    ∧ flatpakListReq.timeoutSec = 10 ∧ wingetListReq.timeoutSec = 15 := by
  refine ⟨?_, ?_, ?_, ?_, ?_, ?_, ?_, rfl, rfl, rfl, rfl, rfl, rfl⟩
  · intro h
    have e1 := h brewCaskReq (Or.inl rfl)
    have e2 := h brewFormulaReq (Or.inl rfl)
    have e3 := h dpkgQueryReq (Or.inl rfl)
    have e4 := h rpmQueryReq (Or.inl rfl)
    have e5 := h flatpakListReq (Or.inl rfl)
    have e6 := h wingetListReq (Or.inr rfl)
    unfold getAllInstalledPackages
    rw [e1, e2, e3, e4, e5, e6]
  · intro h
    simp [getAllInstalledPackages, h]
  · intro h1 h2
    simp [getAllInstalledPackages, h1, h2]
  · intro h
    simp [getAllInstalledPackages, h]
  · intro h
    simp [getAllInstalledPackages, h]
  · intro h
    simp [getAllInstalledPackages, h]
  · intro h
    simp [getAllInstalledPackages, h]

/-- A runner on which the brew formula listing times out while the cask
listing succeeds with one firefox line. -/
def runCaskOnly : RunReq → RunOut :=
  fun req =>
    if req == brewCaskReq then
      RunOut.ok { exitcode := 0, stdout := "firefox 120.0\n", stderr := "" }
    else RunOut.err

/-- Concrete exercise of the C5 theorem: with the formula listing timing
out, the brew index degrades to exactly the casks parsed first. -/
theorem c5_installed_index_degrades_witness :
    getAllInstalledPackages "brew" runCaskOnly =
      parseBrewOut "firefox 120.0\n" [] :=
  (c5_installed_index_degrades runCaskOnly runCaskOnly "brew"
      { exitcode := 0, stdout := "firefox 120.0\n", stderr := "" }).2.2.1
    (by decide) (by decide)

/-- The cache invariant of the running server: whatever list the packages
slot holds was produced by the batched pass, whose statuses all carry
update_available=false. It holds of the empty initial cache and is
preserved by every status call. -/
def CacheOK (s : PMState) : Prop :=
  ∀ l, s.cache = some l → ∀ st ∈ l, st.update_available = false

theorem computeStatuses_no_update (env : Env) :
    ∀ st ∈ computeStatuses env, st.update_available = false := by
  intro st h
  rcases List.mem_map.mp h with ⟨p, _, hp⟩
  exact hp ▸ (statusOf_no_update env p).1

theorem getAllPackagesStatus_fst_no_update (env : Env) (s : PMState) (now : Int)
    (force : Bool) (h : CacheOK s) :
    ∀ st ∈ (getAllPackagesStatus env s now force).1, st.update_available = false := by
  unfold getAllPackagesStatus
  split
  · cases hc : s.cache with
    | none => simpa [refreshStatuses] using computeStatuses_no_update env
    | some l => simpa [hc] using h l hc
  · simpa [refreshStatuses] using computeStatuses_no_update env

/-- APIHandler.handle_update with mode all (server.py lines 992-998): read
the status list through the cache, keep the names whose cached
update_available is true, and run update_package on each, collecting a
name-to-result mapping. -/
def handleUpdateAll (env : Env) (s : PMState) (now : Int) (pm : String)
    (run : List String → CmdResult) : List (String × Bool) :=
  let statuses := (getAllPackagesStatus env s now false).1
  let pkgs := (statuses.filter (fun p => p.update_available)).map (fun p => p.name)
  pkgs.map (fun p => (p, updatePackage pm run p))

/-- C9: under the cache invariant, the mode-all bulk update selects no
package and returns the empty results mapping, because every status the
batched pass produces or caches has update_available=false; and every
status call preserves the invariant. -/
theorem c9_update_all_empty (env : Env) (s : PMState) (now : Int) (force : Bool)
    (pm : String) (run : List String → CmdResult) (h : CacheOK s) :
    handleUpdateAll env s now pm run = []
    ∧ CacheOK (getAllPackagesStatus env s now force).2 := by
  constructor
  · unfold handleUpdateAll
    have hf : ((getAllPackagesStatus env s now false).1.filter
        (fun p => p.update_available)) = [] := by
      rw [List.filter_eq_nil_iff]
      intro a ha
      simp [getAllPackagesStatus_fst_no_update env s now false h a ha]
    simp [hf]
  · intro l hl st hst
    rw [getAllPackagesStatus_cache_some env s now force] at hl
    exact getAllPackagesStatus_fst_no_update env s now force h st
      (Option.some.inj hl ▸ hst)

/-- Concrete exercise of the C9 theorem from the empty initial cache with
a one-entry catalog: the bulk update performs nothing. -/
theorem c9_update_all_empty_witness :
    handleUpdateAll
        { catalog := [{ name := "firefox", enabled := true, description := "" }],
          idx := [("firefox", "120.0")], fsExists := fun _ => false,
          home := ["home", "u"], base := ["srv"] }
        { cache := none, cache_time := 0 } 1000 "brew" runAllFail = []
    ∧ CacheOK
        (getAllPackagesStatus
          { catalog := [{ name := "firefox", enabled := true, description := "" }],
            idx := [("firefox", "120.0")], fsExists := fun _ => false,
            home := ["home", "u"], base := ["srv"] }
          { cache := none, cache_time := 0 } 1000 true).2 :=
  c9_update_all_empty
    { catalog := [{ name := "firefox", enabled := true, description := "" }],
      idx := [("firefox", "120.0")], fsExists := fun _ => false,
      home := ["home", "u"], base := ["srv"] }
    { cache := none, cache_time := 0 } 1000 true "brew" runAllFail
    (fun l hl => absurd hl (by simp))

end DesktopInstall
